import Mathlib

/-!
Shallow embedding of the Keel `Optional<T>` container (src/Optional.h).

The C++ container holds a raw storage block (`TypeCompatibleBytes<T> m_Value`)
and a presence flag (`bool m_HasValue`).  We model the storage contents as an
`Option alpha`: `some v` means a live payload with value `v` currently lives in
the storage, `none` means the storage holds no live object.  The flag is kept
as a separate `Bool` field, exactly as in the source, so states where the flag
and the storage disagree are representable.

The payload type `T` is a type parameter `alpha`.  Its copy constructor and
move constructor may throw, so they are modeled as functions into `Except`:
a copy constructor is `cc : alpha -> Except Unit alpha` (on success, the value
of the constructed copy); a move constructor used on a payload living inside a
container is `mc : alpha -> Except alpha (alpha multiplied-by alpha)`: on
success it yields the pair (constructed value, residual moved-from value left
in the source storage), on failure it yields the residual value alone (the
source payload stays live in both cases, possibly modified).

Operations that can propagate an exception return a result type carrying the
destination container state at the moment the exception leaves the operation,
plus an explicit `ub` case for the one genuinely undefined behavior in this
code: reading `m_Value.Get()` of a storage slot with no live payload.
-/

namespace Keel

/-- The `Optional<T>` object state: storage contents and presence flag,
mirroring the two data members `m_Value` and `m_HasValue` of the source. -/
structure Optional (α : Type) where
  m_Value : Option α
  m_HasValue : Bool
deriving DecidableEq, Repr

/-- Well-formedness invariant of a container: the presence flag is true
exactly when a live payload exists in the storage (spec invariants I1 and I2). -/
def WF {α : Type} (o : Optional α) : Prop :=
  o.m_HasValue = o.m_Value.isSome

instance {α : Type} [DecidableEq α] (o : Optional α) : Decidable (WF o) := by
  unfold WF; infer_instance

/-- `Optional()` : the default constructor, producing an empty container. -/
def mkEmpty {α : Type} : Optional α :=
  { m_Value := none, m_HasValue := false }

/-- `HasValue()` : pure query of the presence flag. -/
def HasValue {α : Type} (o : Optional α) : Bool :=
  o.m_HasValue

/-- `GetValue()` : asserts the presence flag, then reads the storage.  Returns
`none` when the assertion fails (empty container) or when the storage holds no
live payload (undefined behavior in the source); otherwise the payload. -/
def GetValue {α : Type} (o : Optional α) : Option α :=
  if o.m_HasValue then o.m_Value else none

/-- `Get(DefaultValue)` : `HasValue() ? m_Value.Get() : DefaultValue`.  A const
member function: it takes the container by value and returns only a value, so
it cannot mutate the presence flag or the payload.  `none` is the undefined
read of a dead storage slot (unreachable on well-formed containers). -/
def Get {α : Type} (o : Optional α) (d : α) : Option α :=
  if o.m_HasValue then o.m_Value else some d

/-- `Reset()` : if the flag is set, destroy the payload and clear the flag;
otherwise do nothing. -/
def Reset {α : Type} (o : Optional α) : Optional α :=
  if o.m_HasValue then { m_Value := none, m_HasValue := false } else o

/-- `Optional(const T&)` : placement-construct a copy of the value, then set
the flag.  If the copy constructor throws, the object never begins its
lifetime, so the error propagates with no container state. -/
def mkFromValueCopy {α : Type} (cc : α → Except Unit α) (v : α) :
    Except Unit (Optional α) :=
  match cc v with
  | .error e => .error e
  | .ok c => .ok { m_Value := some c, m_HasValue := true }

/-- `Optional(T&&)` : placement-construct from a moved value, then set the
flag.  `mcv` is the payload move constructor applied to an external value. -/
def mkFromValueMove {α : Type} (mcv : α → Except Unit α) (v : α) :
    Except Unit (Optional α) :=
  match mcv v with
  | .error e => .error e
  | .ok c => .ok { m_Value := some c, m_HasValue := true }

/-- Result of constructing a container from another container by copy:
either the constructed object, a propagated exception (the object never
existed), or undefined behavior from reading dead storage. -/
inductive CtorRes (α : Type) where
  | ok : Optional α → CtorRes α
  | thrown : CtorRes α
  | ub : CtorRes α
deriving DecidableEq, Repr

/-- `Optional(const Optional&)` : initialize the flag from the source flag;
if the source flag is set, read the source storage and copy-construct. -/
def mkCopyFromOpt {α : Type} (cc : α → Except Unit α) (src : Optional α) :
    CtorRes α :=
  if src.m_HasValue then
    match src.m_Value with
    | none => .ub
    | some v =>
      match cc v with
      | .error _ => .thrown
      | .ok c => .ok { m_Value := some c, m_HasValue := true }
  else .ok { m_Value := none, m_HasValue := false }

/-- Result of constructing a container from another container by move:
carries the source container state after the operation in the non-ub cases. -/
inductive MoveCtorRes (α : Type) where
  | ok : Optional α → Optional α → MoveCtorRes α
  | thrown : Optional α → MoveCtorRes α
  | ub : MoveCtorRes α
deriving DecidableEq, Repr

/-- The source container state after a move-construction or move-assignment,
when defined: `ok` carries it as the second component, `thrown` carries it
directly, `ub` has no defined state. -/
def MoveCtorRes.srcAfter {α : Type} : MoveCtorRes α → Option (Optional α)
  | .ok _ s => some s
  | .thrown s => some s
  | .ub => none

/-- `Optional(Optional&&)` : initialize the flag from the source flag; if the
source flag is set, read the source storage and move-construct from it.  The
source flag is never written: only the payload is moved from. -/
def mkMoveFromOpt {α : Type} (mc : α → Except α (α × α)) (src : Optional α) :
    MoveCtorRes α :=
  if src.m_HasValue then
    match src.m_Value with
    | none => .ub
    | some v =>
      match mc v with
      | .error r => .thrown { src with m_Value := some r }
      | .ok (c, r) =>
          .ok { m_Value := some c, m_HasValue := true }
             { src with m_Value := some r }
  else .ok { m_Value := none, m_HasValue := false } src

/-- Result of an assignment or emplacement on a container: the destination
state on normal return, the destination state at exception propagation, or
undefined behavior from reading dead storage. -/
inductive AssignRes (α : Type) where
  | ok : Optional α → AssignRes α
  | thrown : Optional α → AssignRes α
  | ub : AssignRes α
deriving DecidableEq, Repr

/-- `operator=(const Optional&)` : `same` is the address identity test
`&Value == this`.  When the operands are distinct: `Reset()`, then
`m_HasValue = Value.m_HasValue` (note: the flag is assigned BEFORE the
placement-new), then, if the source flag is set, read the source storage and
copy-construct into the destination storage. -/
def assignCopyOpt {α : Type} (cc : α → Except Unit α) (dst src : Optional α)
    (same : Bool) : AssignRes α :=
  if same then .ok dst
  else
    let d1 := Reset dst
    let d2 : Optional α := { m_Value := d1.m_Value, m_HasValue := src.m_HasValue }
    if src.m_HasValue then
      match src.m_Value with
      | none => .ub
      | some v =>
        match cc v with
        | .error _ => .thrown d2
        | .ok c => .ok { d2 with m_Value := some c }
    else .ok d2

/-- Result of a move-assignment: destination state plus source state after
the operation, in both the normal and the throwing case. -/
inductive MoveAssignRes (α : Type) where
  | ok : Optional α → Optional α → MoveAssignRes α
  | thrown : Optional α → Optional α → MoveAssignRes α
  | ub : MoveAssignRes α
deriving DecidableEq, Repr

/-- The source container state after a move-assignment, when defined. -/
def MoveAssignRes.srcAfter {α : Type} : MoveAssignRes α → Option (Optional α)
  | .ok _ s => some s
  | .thrown _ s => some s
  | .ub => none

/-- The destination container state a move-assignment leaves behind, also at
exception propagation, when defined. -/
def MoveAssignRes.dstAfter {α : Type} : MoveAssignRes α → Option (Optional α)
  | .ok d _ => some d
  | .thrown d _ => some d
  | .ub => none

/-- `operator=(Optional&&)` : same shape as copy-assignment, with the flag
again assigned BEFORE the placement-new, but move-constructing from the source
payload.  The source flag is never written. -/
def assignMoveOpt {α : Type} (mc : α → Except α (α × α)) (dst src : Optional α)
    (same : Bool) : MoveAssignRes α :=
  if same then .ok dst src
  else
    let d1 := Reset dst
    let d2 : Optional α := { m_Value := d1.m_Value, m_HasValue := src.m_HasValue }
    if src.m_HasValue then
      match src.m_Value with
      | none => .ub
      | some v =>
        match mc v with
        | .error r => .thrown d2 { src with m_Value := some r }
        | .ok (c, r) =>
            .ok { d2 with m_Value := some c } { src with m_Value := some r }
    else .ok d2 src

/-- `operator=(const T&)` : `sameStorage` is the address identity test
`&Value == &m_Value.Get()`.  When distinct: `Reset()`, copy-construct, and
only then set the flag (here the flag is assigned AFTER the placement-new). -/
def assignValueCopy {α : Type} (cc : α → Except Unit α) (dst : Optional α)
    (v : α) (sameStorage : Bool) : AssignRes α :=
  if sameStorage then .ok dst
  else
    let d1 := Reset dst
    match cc v with
    | .error _ => .thrown d1
    | .ok c => .ok { m_Value := some c, m_HasValue := true }

/-- `operator=(T&&)` : like value copy-assignment but move-constructing from
the external value. -/
def assignValueMove {α : Type} (mcv : α → Except Unit α) (dst : Optional α)
    (v : α) (sameStorage : Bool) : AssignRes α :=
  if sameStorage then .ok dst
  else
    let d1 := Reset dst
    match mcv v with
    | .error _ => .thrown d1
    | .ok c => .ok { m_Value := some c, m_HasValue := true }

/-- `Emplace(Args...)` : `Reset()`, then construct `T(Args...)` in place, then
set the flag.  `ctor` is the outcome of the selected payload constructor on
the forwarded arguments. -/
def Emplace {α : Type} (o : Optional α) (ctor : Except Unit α) : AssignRes α :=
  let d1 := Reset o
  match ctor with
  | .error _ => .thrown d1
  | .ok v => .ok { m_Value := some v, m_HasValue := true }

/-- `operator==(const Optional&, const Optional&)` : flags differ gives
false; both flags clear gives true; otherwise compare the two payloads with
the payload equality `beq`.  `none` is the undefined read of dead storage. -/
def optEq {α : Type} (beq : α → α → Bool) (lhs rhs : Optional α) :
    Option Bool :=
  if lhs.m_HasValue != rhs.m_HasValue then some false
  else if !lhs.m_HasValue then some true
  else
    match lhs.m_Value, rhs.m_Value with
    | some x, some y => some (beq x y)
    | _, _ => none

/-- `operator!=(const Optional&, const Optional&)` : flags differ gives true;
both flags clear gives false; otherwise compare the two payloads with the
payload inequality `bne` (computed independently of `optEq`). -/
def optNe {α : Type} (bne : α → α → Bool) (lhs rhs : Optional α) :
    Option Bool :=
  if lhs.m_HasValue != rhs.m_HasValue then some true
  else if !lhs.m_HasValue then some false
  else
    match lhs.m_Value, rhs.m_Value with
    | some x, some y => some (bne x y)
    | _, _ => none

end Keel

namespace Keel

/-- Claim C1 (code-bug evidence): in container copy-assignment and
move-assignment from a distinct present source whose payload constructor
throws, the destination is left with presence flag `true` and NO live payload
in its storage, because the source assigns the flag before the placement-new.
Evaluated here at a concrete input: destination empty, source holding 5,
payload constructor throwing. -/
theorem claim1_assign_throw_leaves_flagged_present :
    assignCopyOpt (fun _ => Except.error ()) (mkEmpty : Optional Nat)
        { m_Value := some 5, m_HasValue := true } false
      = AssignRes.thrown { m_Value := none, m_HasValue := true } ∧
    assignMoveOpt (fun v => Except.error v) (mkEmpty : Optional Nat)
        { m_Value := some 5, m_HasValue := true } false
      = MoveAssignRes.thrown { m_Value := none, m_HasValue := true }
          { m_Value := some 5, m_HasValue := true } := by
  constructor <;> decide

/-- Claim C2: whenever the payload inequality is the pointwise negation of the
payload equality (the standard contract between the two payload operators),
the independently computed container inequality `optNe` agrees with the
negation of the container equality `optEq` on every pair of container states,
payload values included. -/
theorem claim2_ne_negates_eq {α : Type} (beq bne : α → α → Bool)
    (h : ∀ x y, bne x y = !(beq x y)) (lhs rhs : Optional α) :
    optNe bne lhs rhs = (optEq beq lhs rhs).map (fun b => !b) := by
  rcases lhs with ⟨lv, lf⟩
  rcases rhs with ⟨rv, rf⟩
  cases lf <;> cases rf <;> cases lv <;> cases rv <;> simp [optNe, optEq, h]

/-- Witness for claim C2 at payload type Nat with its standard equality and
inequality, on two present containers holding 3 and 4. -/
theorem claim2_witness :
    optNe (fun x y : Nat => x != y)
        { m_Value := some 3, m_HasValue := true }
        { m_Value := some 4, m_HasValue := true }
      = (optEq (fun x y : Nat => x == y)
          { m_Value := some 3, m_HasValue := true }
          { m_Value := some 4, m_HasValue := true }).map (fun b => !b) :=
  claim2_ne_negates_eq (fun x y : Nat => x == y) (fun x y : Nat => x != y)
    (fun _ _ => rfl) _ _

/-- Claim C3: move-construction from a present container and move-assignment
from a distinct present container leave the source container with presence
flag still `true` and a live (moved-from) payload in its storage, whether the
payload move constructor returns or throws; neither operation resets the
source to empty. -/
theorem claim3_move_keeps_source_present {α : Type}
    (mc : α → Except α (α × α)) (src dst : Optional α)
    (hp : src.m_HasValue = true) (hw : WF src) :
    (∃ s, (mkMoveFromOpt mc src).srcAfter = some s ∧
       HasValue s = true ∧ s.m_Value.isSome = true) ∧
    (∃ s, (assignMoveOpt mc dst src false).srcAfter = some s ∧
       HasValue s = true ∧ s.m_Value.isSome = true) := by
  rcases src with ⟨sv, sf⟩
  unfold WF at hw
  simp only at hp
  subst hp
  cases sv with
  | none => simp at hw
  | some v =>
    constructor
    · cases hmc : mc v with
      | error r =>
          refine ⟨{ m_Value := some r, m_HasValue := true }, ?_, rfl, rfl⟩
          simp [mkMoveFromOpt, hmc, MoveCtorRes.srcAfter]
      | ok p =>
          rcases p with ⟨c, r⟩
          refine ⟨{ m_Value := some r, m_HasValue := true }, ?_, rfl, rfl⟩
          simp [mkMoveFromOpt, hmc, MoveCtorRes.srcAfter]
    · cases hmc : mc v with
      | error r =>
          refine ⟨{ m_Value := some r, m_HasValue := true }, ?_, rfl, rfl⟩
          simp [assignMoveOpt, hmc, MoveAssignRes.srcAfter]
      | ok p =>
          rcases p with ⟨c, r⟩
          refine ⟨{ m_Value := some r, m_HasValue := true }, ?_, rfl, rfl⟩
          simp [assignMoveOpt, hmc, MoveAssignRes.srcAfter]

/-- Witness for claim C3: source holding 5, destination empty, with a payload
move constructor that succeeds leaving 0 behind. -/
theorem claim3_witness :
    (∃ s, (mkMoveFromOpt (fun v : Nat => Except.ok (v, 0))
        { m_Value := some 5, m_HasValue := true }).srcAfter = some s ∧
       HasValue s = true ∧ s.m_Value.isSome = true) ∧
    (∃ s, (assignMoveOpt (fun v : Nat => Except.ok (v, 0)) mkEmpty
        { m_Value := some 5, m_HasValue := true } false).srcAfter = some s ∧
       HasValue s = true ∧ s.m_Value.isSome = true) :=
  claim3_move_keeps_source_present (fun v : Nat => Except.ok (v, 0))
    { m_Value := some 5, m_HasValue := true } mkEmpty rfl rfl

/-- Claim C4: when the payload copy (respectively move) constructor succeeds
and yields a value equal to its argument, the container constructed from a
value v by copy (respectively move) reports HasValue true and GetValue v. -/
theorem claim4_fromValue_holds_value {α : Type} (v : α)
    (cc mcv : α → Except Unit α)
    (hc : cc v = Except.ok v) (hm : mcv v = Except.ok v) :
    (∃ o, mkFromValueCopy cc v = Except.ok o ∧
       HasValue o = true ∧ GetValue o = some v) ∧
    (∃ o, mkFromValueMove mcv v = Except.ok o ∧
       HasValue o = true ∧ GetValue o = some v) := by
  constructor
  · refine ⟨{ m_Value := some v, m_HasValue := true }, ?_, rfl, rfl⟩
    simp [mkFromValueCopy, hc]
  · refine ⟨{ m_Value := some v, m_HasValue := true }, ?_, rfl, rfl⟩
    simp [mkFromValueMove, hm]

/-- Witness for claim C4 at v = 9 with faithful payload constructors. -/
theorem claim4_witness :
    (∃ o, mkFromValueCopy (fun x : Nat => Except.ok x) 9 = Except.ok o ∧
       HasValue o = true ∧ GetValue o = some 9) ∧
    (∃ o, mkFromValueMove (fun x : Nat => Except.ok x) 9 = Except.ok o ∧
       HasValue o = true ∧ GetValue o = some 9) :=
  claim4_fromValue_holds_value 9 (fun x => Except.ok x) (fun x => Except.ok x)
    rfl rfl

/-- Claim C5: container equality on well-formed containers: both empty gives
true; exactly one empty gives false; both present compares the two payloads
with the payload equality. -/
theorem claim5_eq_cases {α : Type} (beq : α → α → Bool) (a b : Optional α)
    (ha : WF a) (hb : WF b) :
    (a.m_HasValue = false → b.m_HasValue = false → optEq beq a b = some true) ∧
    (a.m_HasValue ≠ b.m_HasValue → optEq beq a b = some false) ∧
    (a.m_HasValue = true → b.m_HasValue = true →
       ∃ x y, a.m_Value = some x ∧ b.m_Value = some y ∧
         optEq beq a b = some (beq x y)) := by
  rcases a with ⟨av, af⟩
  rcases b with ⟨bv, bf⟩
  unfold WF at ha hb
  cases af <;> cases bf <;> cases av <;> cases bv <;> simp_all [optEq]

/-- Witness for claim C5 on two present Nat containers holding 2 and 2. -/
theorem claim5_witness :
    ((({ m_Value := some 2, m_HasValue := true } : Optional Nat).m_HasValue = false) →
      (({ m_Value := some 2, m_HasValue := true } : Optional Nat).m_HasValue = false) →
      optEq (fun x y : Nat => x == y)
        { m_Value := some 2, m_HasValue := true }
        { m_Value := some 2, m_HasValue := true } = some true) ∧
    ((({ m_Value := some 2, m_HasValue := true } : Optional Nat).m_HasValue ≠
        ({ m_Value := some 2, m_HasValue := true } : Optional Nat).m_HasValue) →
      optEq (fun x y : Nat => x == y)
        { m_Value := some 2, m_HasValue := true }
        { m_Value := some 2, m_HasValue := true } = some false) ∧
    ((({ m_Value := some 2, m_HasValue := true } : Optional Nat).m_HasValue = true) →
      (({ m_Value := some 2, m_HasValue := true } : Optional Nat).m_HasValue = true) →
      ∃ x y, ({ m_Value := some 2, m_HasValue := true } : Optional Nat).m_Value = some x ∧
        ({ m_Value := some 2, m_HasValue := true } : Optional Nat).m_Value = some y ∧
        optEq (fun x y : Nat => x == y)
          { m_Value := some 2, m_HasValue := true }
          { m_Value := some 2, m_HasValue := true } = some ((fun x y : Nat => x == y) x y)) :=
  claim5_eq_cases (fun x y : Nat => x == y)
    { m_Value := some 2, m_HasValue := true }
    { m_Value := some 2, m_HasValue := true } rfl rfl

end Keel

namespace Keel

/-- Claim C6: Emplace on a well-formed container first destroys any existing
payload, then constructs in place: on constructor success with value v the
container is present and GetValue yields v; on constructor failure the
container is left empty (the old payload is already gone, no rollback). -/
theorem claim6_emplace {α : Type} (o : Optional α) (hw : WF o)
    (ctor : Except Unit α) :
    (∀ v, ctor = Except.ok v →
       Emplace o ctor = AssignRes.ok { m_Value := some v, m_HasValue := true } ∧
       HasValue ({ m_Value := some v, m_HasValue := true } : Optional α) = true ∧
       GetValue ({ m_Value := some v, m_HasValue := true } : Optional α) = some v) ∧
    (∀ e, ctor = Except.error e →
       Emplace o ctor = AssignRes.thrown mkEmpty ∧
       HasValue (mkEmpty : Optional α) = false) := by
  rcases o with ⟨ov, f⟩
  unfold WF at hw
  constructor
  · rintro v rfl
    exact ⟨rfl, rfl, rfl⟩
  · rintro e rfl
    refine ⟨?_, rfl⟩
    cases f with
    | true => rfl
    | false =>
        cases ov with
        | none => rfl
        | some x => simp at hw

/-- Witness for claim C6: a present container holding 3, emplacing 7, and a
present container holding 3 with a throwing constructor. -/
theorem claim6_witness :
    (Emplace ({ m_Value := some 3, m_HasValue := true } : Optional Nat)
        (Except.ok 7)
      = AssignRes.ok { m_Value := some 7, m_HasValue := true } ∧
     HasValue ({ m_Value := some 7, m_HasValue := true } : Optional Nat) = true ∧
     GetValue ({ m_Value := some 7, m_HasValue := true } : Optional Nat) = some 7) ∧
    (Emplace ({ m_Value := some 3, m_HasValue := true } : Optional Nat)
        (Except.error ())
      = AssignRes.thrown mkEmpty ∧
     HasValue (mkEmpty : Optional Nat) = false) :=
  ⟨(claim6_emplace { m_Value := some 3, m_HasValue := true } rfl
      (Except.ok 7)).1 7 rfl,
   (claim6_emplace { m_Value := some 3, m_HasValue := true } rfl
      (Except.error ())).2 () rfl⟩

/-- Claim C7: Reset always leaves the flag false, is idempotent, is a no-op
on an already-empty container, and destroys the payload exactly when one is
present (the storage afterwards holds no live object). -/
theorem claim7_reset {α : Type} (o : Optional α) :
    HasValue (Reset o) = false ∧
    Reset (Reset o) = Reset o ∧
    (o.m_HasValue = false → Reset o = o) ∧
    (o.m_HasValue = true → (Reset o).m_Value = none) := by
  rcases o with ⟨v, f⟩
  cases f <;> simp [Reset, HasValue]

/-- Witness for claim C7 on a present Nat container holding 5. -/
theorem claim7_witness :
    HasValue (Reset ({ m_Value := some 5, m_HasValue := true } : Optional Nat))
      = false ∧
    Reset (Reset ({ m_Value := some 5, m_HasValue := true } : Optional Nat))
      = Reset { m_Value := some 5, m_HasValue := true } ∧
    (({ m_Value := some 5, m_HasValue := true } : Optional Nat).m_HasValue = false →
       Reset { m_Value := some 5, m_HasValue := true }
         = { m_Value := some 5, m_HasValue := true }) ∧
    (({ m_Value := some 5, m_HasValue := true } : Optional Nat).m_HasValue = true →
       (Reset ({ m_Value := some 5, m_HasValue := true } : Optional Nat)).m_Value
         = none) :=
  claim7_reset { m_Value := some 5, m_HasValue := true }

/-- Claim C8: every assignment form whose identity test fires (container copy
and move assignment with source equal to destination, value copy and move
assignment whose source is the own payload address) returns the destination
unchanged, for any present container: the flag stays true and GetValue is
unchanged.  The theorem holds for arbitrary, even always-throwing, payload
constructors, showing no destruction or construction takes place and the
decision depends only on the identity test, never on payload equality. -/
theorem claim8_self_assign_noop {α : Type} (a : Optional α) (v : α)
    (cc mcv : α → Except Unit α) (mc : α → Except α (α × α))
    (hp : a.m_HasValue = true) :
    assignCopyOpt cc a a true = AssignRes.ok a ∧
    assignMoveOpt mc a a true = MoveAssignRes.ok a a ∧
    assignValueCopy cc a v true = AssignRes.ok a ∧
    assignValueMove mcv a v true = AssignRes.ok a ∧
    HasValue a = true ∧
    GetValue a = a.m_Value := by
  refine ⟨rfl, rfl, rfl, rfl, hp, ?_⟩
  simp [GetValue, hp]

/-- Witness for claim C8 on a present Nat container holding 4, with throwing
payload constructors. -/
theorem claim8_witness :
    assignCopyOpt (fun _ => Except.error ())
        ({ m_Value := some 4, m_HasValue := true } : Optional Nat)
        { m_Value := some 4, m_HasValue := true } true
      = AssignRes.ok { m_Value := some 4, m_HasValue := true } ∧
    assignMoveOpt (fun w : Nat => Except.error w)
        { m_Value := some 4, m_HasValue := true }
        { m_Value := some 4, m_HasValue := true } true
      = MoveAssignRes.ok { m_Value := some 4, m_HasValue := true }
          { m_Value := some 4, m_HasValue := true } ∧
    assignValueCopy (fun _ => Except.error ())
        { m_Value := some 4, m_HasValue := true } 4 true
      = AssignRes.ok { m_Value := some 4, m_HasValue := true } ∧
    assignValueMove (fun _ => Except.error ())
        { m_Value := some 4, m_HasValue := true } 4 true
      = AssignRes.ok { m_Value := some 4, m_HasValue := true } ∧
    HasValue ({ m_Value := some 4, m_HasValue := true } : Optional Nat) = true ∧
    GetValue ({ m_Value := some 4, m_HasValue := true } : Optional Nat)
      = ({ m_Value := some 4, m_HasValue := true } : Optional Nat).m_Value :=
  claim8_self_assign_noop { m_Value := some 4, m_HasValue := true } 4
    (fun _ => Except.error ()) (fun _ => Except.error ())
    (fun w => Except.error w) rfl

/-- Claim C9: on a well-formed container, Get with default d returns the
payload when present and d when empty, for every d, the case d equal to the
payload included; Get returns only a value, so presence and payload are
untouched. -/
theorem claim9_get_default {α : Type} (o : Optional α) (d : α) (hw : WF o) :
    (o.m_HasValue = true → ∃ x, o.m_Value = some x ∧ Get o d = some x) ∧
    (o.m_HasValue = false → Get o d = some d) := by
  rcases o with ⟨v, f⟩
  unfold WF at hw
  cases f <;> cases v <;> simp_all [Get]

/-- Witness for claim C9 on a present container holding 7 with default 7
(default equal to the payload). -/
theorem claim9_witness :
    ((({ m_Value := some 7, m_HasValue := true } : Optional Nat).m_HasValue = true) →
       ∃ x, ({ m_Value := some 7, m_HasValue := true } : Optional Nat).m_Value = some x ∧
         Get ({ m_Value := some 7, m_HasValue := true } : Optional Nat) 7 = some x) ∧
    ((({ m_Value := some 7, m_HasValue := true } : Optional Nat).m_HasValue = false) →
       Get ({ m_Value := some 7, m_HasValue := true } : Optional Nat) 7 = some 7) :=
  claim9_get_default { m_Value := some 7, m_HasValue := true } 7 rfl

/-- Claim C10: when at least one operand is empty, container equality and
inequality are decided by the presence flags alone: the result is defined
(never the undefined dead-storage read) and equals agreement respectively
disagreement of the flags, and it is invariant under arbitrary replacement of
either storage content. -/
theorem claim10_eq_flag_only {α : Type} (beq bne : α → α → Bool)
    (a b : Optional α) (h : a.m_HasValue = false ∨ b.m_HasValue = false) :
    optEq beq a b = some (a.m_HasValue == b.m_HasValue) ∧
    optNe bne a b = some (!(a.m_HasValue == b.m_HasValue)) ∧
    (∀ s t : Option α,
       optEq beq { a with m_Value := s } { b with m_Value := t }
         = optEq beq a b) ∧
    (∀ s t : Option α,
       optNe bne { a with m_Value := s } { b with m_Value := t }
         = optNe bne a b) := by
  rcases a with ⟨av, af⟩
  rcases b with ⟨bv, bf⟩
  cases af <;> cases bf <;> simp_all [optEq, optNe]

/-- Witness for claim C10: empty left operand against a present right operand
holding 1. -/
theorem claim10_witness :
    optEq (fun x y : Nat => x == y) mkEmpty
        { m_Value := some 1, m_HasValue := true }
      = some ((mkEmpty : Optional Nat).m_HasValue ==
          ({ m_Value := some 1, m_HasValue := true } : Optional Nat).m_HasValue) ∧
    optNe (fun x y : Nat => x != y) mkEmpty
        { m_Value := some 1, m_HasValue := true }
      = some (!((mkEmpty : Optional Nat).m_HasValue ==
          ({ m_Value := some 1, m_HasValue := true } : Optional Nat).m_HasValue)) ∧
    (∀ s t : Option Nat,
       optEq (fun x y : Nat => x == y)
           { (mkEmpty : Optional Nat) with m_Value := s }
           { ({ m_Value := some 1, m_HasValue := true } : Optional Nat) with
               m_Value := t }
         = optEq (fun x y : Nat => x == y) mkEmpty
             { m_Value := some 1, m_HasValue := true }) ∧
    (∀ s t : Option Nat,
       optNe (fun x y : Nat => x != y)
           { (mkEmpty : Optional Nat) with m_Value := s }
           { ({ m_Value := some 1, m_HasValue := true } : Optional Nat) with
               m_Value := t }
         = optNe (fun x y : Nat => x != y) mkEmpty
             { m_Value := some 1, m_HasValue := true }) :=
  claim10_eq_flag_only (fun x y : Nat => x == y) (fun x y : Nat => x != y)
    mkEmpty { m_Value := some 1, m_HasValue := true } (Or.inl rfl)

end Keel
